import Mathlib

/-!
Verification of the query-routing / RAG workflow core of the rag-app repository.

The Lean definitions below are shallow embeddings of the Python sources:

* `app/core/retrievers/search_params.py` — filter-condition construction
  (`create_filter_conditions`, `child_parent_retriever_search_params`);
* `app/core/retrievers/retrievers.py` — the two-stage retrieval engine
  (`FilterRetriever.invoke`, `ChildParentRetriever.multiple_invoke`);
* `app/core/agents/agents.py` — classification / extraction / retrieval agents;
* `app/core/src/workflow.py` — the workflow graph routing and the streaming
  response assembler (`WorkFlow.stream_workflow`);
* `app/api/services/chat_service.py` — the SSE streaming layer
  (`ChatService.stream_chat`).

Python exceptions are modelled with `Except PyError` / `Except String`; values
that can be `None` in Python are modelled with `Option`; Python dict payloads
are modelled with explicit structures.  Strings manipulated character by
character by the streaming assembler are modelled as `List Char`.
-/

/-- Python-level runtime errors raised by the embedded functions. -/
inductive PyError
  | typeError (msg : String)
  | attributeError (msg : String)
deriving Repr, DecidableEq

/-- Python truthiness of an optional integer: `None` and `0` are falsy. -/
def intTruthy : Option Int → Bool
  | none => false
  | some n => n != 0

/-- Python truthiness of an optional list: `None` and `[]` are falsy. -/
def listTruthy {α : Type} : Option (List α) → Bool
  | none => false
  | some l => !l.isEmpty

/-- Python truthiness of an optional boolean: `None` and `False` are falsy. -/
def boolTruthy : Option Bool → Bool
  | none => false
  | some b => b

/-- Structured-output schema `PriceCampusExtraction` of `app/core/src/models.py`:
every field is optional with default `None`. -/
structure PriceCampusExtraction where
  price : Option Int
  price_condition : Option String
  languages : Option (List String)
  primos_arrivant : Option Bool
  school_rank : Option Int
deriving Repr, DecidableEq

/-- A `PriceCampusExtraction` with every field at its `None` default. -/
def pciNone : PriceCampusExtraction :=
  ⟨none, none, none, none, none⟩

/-- Metadata filter expression tree built by `create_filter_conditions`
(`app/core/retrievers/search_params.py`).  Each constructor is one of the
dict conditions appended by the source; `andC`/`orC` are the `$and`/`$or`
combinators. -/
inductive Cond
  | priceGte (bound : Int)
  | priceLte (bound : Int)
  | primosArrivantEq (b : Bool)
  | fieldEqTrue (field : String)
  | orC (cs : List Cond)
  | schoolRankLte (bound : Int)
  | programTypeIn (types : List String)
  | programIdNin (ids : List String)
  | andC (cs : List Cond)

/-- Conditions contributed by the price block of `create_filter_conditions`
(lines 17-21): only under a truthy `price`, and only for the `"gt"` / `"lt"`
values of `price_condition`, with the -1000 / +2000 tolerance bands. -/
def price_condition_conds (pci : PriceCampusExtraction) : List Cond :=
  match pci.price with
  | some p =>
    if p != 0 then
      (if pci.price_condition = some "gt" then [Cond.priceGte (p - 1000)]
       else if pci.price_condition = some "lt" then [Cond.priceLte (p + 2000)]
       else [])
    else []
  | none => []

/-- Condition contributed by the `primos_arrivant` block (lines 23-24). -/
def primos_conds (pci : PriceCampusExtraction) : List Cond :=
  if boolTruthy pci.primos_arrivant then [Cond.primosArrivantEq true] else []

/-- Conditions contributed by the languages block (lines 26-32): one
`{lang: {$eq: True}}` per language, a single condition kept bare and two or
more wrapped in `$or`. -/
def language_conds (pci : PriceCampusExtraction) : List Cond :=
  match pci.languages with
  | some langs =>
    if !langs.isEmpty then
      match langs.map Cond.fieldEqTrue with
      | [c] => [c]
      | cs => [Cond.orC cs]
    else []
  | none => []

/-- Conditions contributed by the entry-level block (lines 35-41), same
single-vs-`$or` shape as the languages block. -/
def entry_level_conds (entry_level : Option (List String)) : List Cond :=
  match entry_level with
  | some levels =>
    if !levels.isEmpty then
      match levels.map Cond.fieldEqTrue with
      | [c] => [c]
      | cs => [Cond.orC cs]
    else []
  | none => []

/-- Condition contributed by the `school_rank` block (lines 43-44). -/
def school_rank_conds (pci : PriceCampusExtraction) : List Cond :=
  match pci.school_rank with
  | some r => if r != 0 then [Cond.schoolRankLte r] else []
  | none => []

/-- Exclusion condition (lines 50-51): only when the id list is non-empty
and the `exclude` flag is set. -/
def exclusion_conds (exclude_ids_list : List String) (exclude : Bool) : List Cond :=
  if !exclude_ids_list.isEmpty && exclude then [Cond.programIdNin exclude_ids_list] else []

/-- Final combinator of `create_filter_conditions` (lines 53-57): a single
condition is returned bare, two or more are wrapped in `$and`. -/
def combine_conditions : List Cond → Cond
  | [c] => c
  | cs => Cond.andC cs

/-- `create_filter_conditions` from `app/core/retrievers/search_params.py`.
The `price_campus_info` parameter defaults to `None` in the source yet is
dereferenced unconditionally (`price_campus_info.price`, line 17), so a
`None` argument raises `AttributeError`; this is modelled by the `none`
branch.  Condition segments are appended in source order: price, primos,
languages, entry levels, school rank, program type (always), exclusion. -/
def create_filter_conditions (program_types : List String)
    (exclude_ids_list : List String) (exclude : Bool)
    (price_campus_info : Option PriceCampusExtraction)
    (entry_level : Option (List String)) : Except PyError Cond :=
  match price_campus_info with
  | none =>
    Except.error (PyError.attributeError "NoneType object has no attribute price")
  | some pci =>
    let conditions : List Cond :=
      price_condition_conds pci ++ primos_conds pci ++ language_conds pci ++
        entry_level_conds entry_level ++ school_rank_conds pci ++
        [Cond.programTypeIn program_types] ++ exclusion_conds exclude_ids_list exclude
    Except.ok (combine_conditions conditions)

/-- Retrieval search keyword arguments (`search_kwargs`). -/
structure SearchKwargs where
  k : Int
  filter : Cond

/-- Retrieval search parameters produced by
`child_parent_retriever_search_params`. -/
structure SearchParams where
  search_kwargs : SearchKwargs

/-- The default program-type catalog written literally in the empty-types
branch of `child_parent_retriever_search_params` (lines 92-105). -/
def default_program_catalog : List String :=
  ["less selective master", "Mastère Spécialisé®", "MSc", "BBA", "Other",
   "Bachelor", "MBA", "Cycle Préparatoire", "BTS"]

/-- `child_parent_retriever_search_params` from
`app/core/retrievers/search_params.py`.  `k` is incremented by one.  In the
empty `program_types` branch the source calls
`create_filter_conditions(default_catalog, exclude_ids)` with just two
positional arguments while the callee declares three required positional
parameters (`program_types`, `exclude_ids_list`, `exclude`), so Python
raises `TypeError` before the callee body runs; that call is modelled by
the `typeError` value. -/
def child_parent_retriever_search_params (program_types : List String) (k : Int)
    (exclude_ids : List String) (price_campus_info : Option PriceCampusExtraction)
    (entry_level : Option (List String)) (exclude : Bool) : Except PyError SearchParams :=
  let k := k + 1
  if !program_types.isEmpty then
    match create_filter_conditions program_types exclude_ids exclude
      price_campus_info entry_level with
    | Except.error e => Except.error e
    | Except.ok conditions => Except.ok ⟨⟨k, conditions⟩⟩
  else
    Except.error (PyError.typeError
      "create_filter_conditions missing 1 required positional argument: exclude")

/-- Whether a single condition is the negated-membership exclusion. -/
def isExclusionCond : Cond → Bool
  | Cond.programIdNin _ => true
  | _ => false

/-- Whether a built filter contains the exclusion condition, either bare or
as a conjunct of the top-level `$and`. -/
def filterHasExclusion : Cond → Bool
  | Cond.andC cs => cs.any isExclusionCond
  | c => isExclusionCond c

/-- `exclude` flag computed by `child_parent_retriever_agent`
(`app/core/agents/agents.py` lines 264-268) from the per-turn retriever
intent: `True` exactly for `"NEW"`, hence `False` for `"REPEAT"`. -/
def retriever_exclude_flag (retriever_intent : Option String) : Bool :=
  if retriever_intent.getD "NEW" = "NEW" then true else false

-- Helper lemmas: no segment before the exclusion append ever produces the
-- exclusion condition.

/-- The per-turn conversation `State` TypedDict of `app/core/src/models.py`
(restricted to the fields the workflow reads); a LangGraph state key that
was never written is absent, modelled by `none`. -/
structure State where
  query : String
  messages : List String
  rewritten_query : Option String
  question_category : Option String
  program_type : Option (List String)
  excluded_ids : List String
  retriever_intent : Option String
  price_campus_info : Option PriceCampusExtraction
  entry_level : Option (List String)
  content : Option (List String)
  response : Option String

/-- The initial state built by `stream_workflow` (lines 120-124): only
`query`, `messages` and `excluded_ids` are set. -/
def initialTurnState (query : String) (messages : List String)
    (excluded_ids : List String) : State :=
  ⟨query, messages, none, none, none, excluded_ids, none, none, none, none, none⟩

/-- The conditional-edge selector out of `query_classification_agent`
(`workflow.py` lines 52-54): `state.get("question_category", "general")` —
the `"general"` default applies only when the key is absent. -/
def route_question_category (s : State) : String :=
  s.question_category.getD "general"

/-- The destination mapping of `add_conditional_edges` (lines 55-61).  It is
a Python dict lookup: a branch value with no entry has no destination
(LangGraph raises at runtime instead of routing anywhere). -/
def classification_path_map (c : String) : Option String :=
  if c = "program_selection" then some "filter_parameters_extraction"
  else if c = "rules" then some "rules"
  else if c = "follow_up" then some "follow_up"
  else if c = "general" then some "general_question"
  else none

/-- The nodes whose chat-model token streams are forwarded to the caller
(`STREAMING_NODES` in `stream_workflow`, lines 90-95); these are exactly the
four terminal generation nodes of the graph. -/
def streaming_nodes : List String :=
  ["general_question", "rules", "follow_up", "sg_bot"]

/-- The unconditional edges added by `WorkFlow._build_graph`
(lines 47-69). -/
def workflow_static_edges : List (String × String) :=
  [("__start__", "rewrite_query_agent"),
   ("rewrite_query_agent", "query_classification_agent"),
   ("rules", "__end__"),
   ("follow_up", "__end__"),
   ("general_question", "__end__"),
   ("filter_parameters_extraction", "child_parent_retriever"),
   ("child_parent_retriever", "sg_bot"),
   ("sg_bot", "__end__")]

/-- Follow one static edge of the graph. -/
def next_static_node (n : String) : Option String :=
  (workflow_static_edges.find? (fun e => e.1 == n)).map (fun e => e.2)

/-- The terminal generation node reached from a routing destination by
following static edges (with fuel; the graph is finite and acyclic). -/
def terminal_generation_node : Nat → String → Option String
  | 0, _ => none
  | fuel + 1, n =>
    if streaming_nodes.contains n then some n
    else
      match next_static_node n with
      | some m => terminal_generation_node fuel m
      | none => none

/-- Structured-output schema `ProgramExtractionOutputV2`: a list of program
types. -/
structure ProgramExtractionOutputV2 where
  program_type : List String
deriving Repr, DecidableEq

/-- Structured-output schema `RetrieverIntentOutput`. -/
structure RetrieverIntentOutput where
  retriever_intent : String
deriving Repr, DecidableEq

/-- Structured-output schema `EntryLevelPromptOutput`. -/
structure EntryLevelPromptOutput where
  entry_level : List String
deriving Repr, DecidableEq

/-- The combined partial state update assembled by the extraction agent;
`none` marks a field omitted from the update. -/
structure ExtractionUpdate where
  program_type : Option (List String)
  price_campus_info : Option PriceCampusExtraction
  retriever_intent : Option String
  entry_level : Option (List String)
deriving Repr, DecidableEq

/-- `asyncio.gather(program_task, price_task, retriever_task, entry_task,
return_exceptions=False)` as awaited by `filter_parameters_extraction_agent`
(lines 212-223).  With `return_exceptions=False` a raised exception
propagates out of the `await` instead of being collected, so the gather
yields the four results only when every task succeeds.  (Real `gather`
propagates the first exception in completion order; which error is
propagated is irrelevant here, only that one is.) -/
def asyncio_gather_four
    (program : Except String ProgramExtractionOutputV2)
    (price : Except String PriceCampusExtraction)
    (retriever : Except String RetrieverIntentOutput)
    (entry : Except String EntryLevelPromptOutput) :
    Except String (ProgramExtractionOutputV2 × PriceCampusExtraction ×
      RetrieverIntentOutput × EntryLevelPromptOutput) :=
  match program with
  | Except.error e => Except.error e
  | Except.ok a =>
    match price with
    | Except.error e => Except.error e
    | Except.ok b =>
      match retriever with
      | Except.error e => Except.error e
      | Except.ok c =>
        match entry with
        | Except.error e => Except.error e
        | Except.ok d => Except.ok (a, b, c, d)

/-- `filter_parameters_extraction_agent` (lines 168-238), with the outcome
of each of the four extraction model calls supplied as an argument.  After a
successful gather, the source's combining loop wraps each result in a
non-empty (hence truthy) dict which is never an `Exception` instance, so
every field enters the combined update; when any task raises, the gather
re-raises and the loop never runs. -/
def filter_parameters_extraction_agent
    (program_result : Except String ProgramExtractionOutputV2)
    (price_campus_result : Except String PriceCampusExtraction)
    (retriever_result : Except String RetrieverIntentOutput)
    (entry_level_result : Except String EntryLevelPromptOutput) :
    Except String ExtractionUpdate :=
  match asyncio_gather_four program_result price_campus_result
      retriever_result entry_level_result with
  | Except.error e => Except.error e
  | Except.ok (p, pc, r, el) =>
    Except.ok ⟨some p.program_type, some pc, some r.retriever_intent,
      some el.entry_level⟩

/-- `rewrite_query_agent` (lines 65-83), with the model-call outcome as
argument: on success it returns the `rewritten_query` partial update, on
failure it returns `None` — no state update. -/
def rewrite_query_agent (llm_result : Except String String) : Option String :=
  match llm_result with
  | Except.ok rewritten => some rewritten
  | Except.error _ => none

/-- LangGraph's application of the rewrite node's return value to the
state: a `None` return updates nothing. -/
def apply_rewrite_update (s : State) (upd : Option String) : State :=
  match upd with
  | some rq => { s with rewritten_query := some rq }
  | none => s

/-- Input selection of `query_classification_agent` (line 91):
`state.get("rewritten_query", "")`. -/
def classification_user_input (s : State) : String :=
  s.rewritten_query.getD ""

/-- Input selection of `general_question_agent` (line 115):
`state.get("rewritten_query", "")`. -/
def general_question_user_input (s : State) : String :=
  s.rewritten_query.getD ""

/-- Input selection of `follow_up_agent` (line 134):
`state.get("rewritten_query")` — `None` when absent. -/
def follow_up_user_input (s : State) : Option String :=
  s.rewritten_query

/-- Input selection of `sg_bot_agent` (line 296):
`state.get("rewritten_query")` — `None` when absent. -/
def sg_bot_user_input (s : State) : Option String :=
  s.rewritten_query

/-- A child document returned by a partition's similarity search; its
metadata may or may not carry the `program_id` key (`none` models a missing
key, whose lookup raises `KeyError`).  The stored value is the stringified
id. -/
structure ChildDoc where
  program_id : Option String
deriving Repr, DecidableEq

/-- `RetrieverConfig` dataclass (`retriever_interface.py`): a rewritten
query plus search parameters applied verbatim; `none` models a
missing/malformed `search_params` payload. -/
structure RetrieverConfig where
  rewritten_query : String
  search_params : Option SearchParams

/-- Environment of one partition's `FilterRetriever`: whether the
vectorstore was successfully initialized, whether `as_retriever` accepts the
search parameters, whether the basic fallback retriever can be built, and
the outcome of the similarity search itself. -/
structure PartitionEnv where
  vectorstoreOk : Bool
  asRetrieverOk : Bool
  fallbackOk : Bool
  searchResult : Except String (List ChildDoc)

/-- `FilterRetriever.invoke` (`retrievers.py` lines 103-143): every failure
mode is caught internally — a failed `as_retriever` falls back to a basic
retriever, a missing vectorstore or retriever yields empty content, and a
failing search is caught and yields empty content.  The function always
returns a content list and never raises. -/
def FilterRetriever_invoke (env : PartitionEnv) (_cfg : RetrieverConfig) :
    List ChildDoc :=
  let retrieverOk := env.asRetrieverOk || env.fallbackOk
  if !env.vectorstoreOk || !retrieverOk then []
  else
    match env.searchResult with
    | Except.ok docs => docs
    | Except.error _ => []

/-- Environment of the `ChildParentRetriever`: the three partition
environments plus the outcome of opening and parsing the parent JSON file,
given as an association list from `program_id` to the formatted parent
record (the formatted text is taken as given data; `format_program_for_context`
is pure formatting). -/
structure RetrieverEnv where
  grande_ecole : PartitionEnv
  ecole_specialisee : PartitionEnv
  specialization : PartitionEnv
  parent_json : Except String (List (String × String))

/-- The result dict of `multiple_invoke`: the `content` key is always
present; `ids = none` models a dict with no `ids` key at all. -/
structure RetrieverResult where
  content : List String
  ids : Option (List String)
deriving Repr, DecidableEq

/-- The body of `ChildParentRetriever.multiple_invoke` (lines 233-280)
without its surrounding `try`/`except`: invoke the three partitions
(each internally total), concatenate children in source order (grande
école, then specialization, then école spécialisée), open the parent JSON
(can raise), map every child to its `program_id` metadata (a missing key
raises `KeyError`), then keep the parent records whose id occurs among the
children ids, in parent-file order. -/
def ChildParentRetriever_multiple_invoke_unhandled (env : RetrieverEnv)
    (cfg : RetrieverConfig) : Except String RetrieverResult :=
  match env.parent_json,
    (FilterRetriever_invoke env.grande_ecole cfg ++
     FilterRetriever_invoke env.specialization cfg ++
     FilterRetriever_invoke env.ecole_specialisee cfg).mapM
       (fun d => d.program_id) with
  | Except.error e, _ => Except.error e
  | Except.ok _, none => Except.error "KeyError: program_id"
  | Except.ok parent_docs, some ids =>
    Except.ok ⟨(parent_docs.filter (fun kv => ids.contains kv.1)).map (fun kv => kv.2),
      some ids⟩

/-- `ChildParentRetriever.multiple_invoke` (lines 225-284): the whole body
runs under `try`; any exception is caught and the fallback value
`{"content": []}` — with no `ids` key — is returned (line 284). -/
def ChildParentRetriever_multiple_invoke (env : RetrieverEnv)
    (cfg : RetrieverConfig) : RetrieverResult :=
  match ChildParentRetriever_multiple_invoke_unhandled env cfg with
  | Except.ok r => r
  | Except.error _ => ⟨[], none⟩

/-- Events yielded by `WorkFlow.stream_workflow` (`app/core/src/workflow.py`):
plain string chunks and dict events.  `text` is a Python `str` chunk;
all other constructors are dicts ( `streamComplete` is the control dict
`{"__stream_complete__": True}` ). -/
inductive WFEvent
  | text (s : List Char)
  | respTypeMeta (v : String)
  | schoolLogo (url : List Char)
  | programLink (url : List Char)
  | finalMeta (run_id : Option String) (rewritten_query : Option (List Char))
  | streamComplete
deriving Repr, DecidableEq

/-- A server-sent event written by `ChatService.stream_chat`. -/
inductive SSEvent
  | textData (s : List Char)
  | dictData (d : WFEvent)
  | errorData (err : String) (msg : String)
  | done
deriving Repr, DecidableEq

/-- The chunk-forwarding rule of `stream_chat`'s loop (lines 61-70): a
string chunk becomes text data; a dict containing `__stream_complete__` is
skipped; every other dict is forwarded. -/
def chat_forward : WFEvent → Option SSEvent
  | WFEvent.text s => some (SSEvent.textData s)
  | WFEvent.streamComplete => none
  | e => some (SSEvent.dictData e)

/-- `ChatService.stream_chat` (lines 51-113).  `produced` is the prefix of
workflow events yielded before the stream ended or raised; `failure` is the
exception text when the guarded block raised (`none` for a clean run).  The
run identifier known to the service through the workflow (`bot.current_run_id`)
is passed in to show the error path does not use it.  The persistence steps
swallow their own exceptions or run on the clean path only, and yield
nothing; both paths end with the `[DONE]` marker, and the except path first
yields the dict `{"error": "Stream interrupted", "message": str(e)}`
(lines 110-113). -/
def ChatService_stream_chat (produced : List WFEvent) (failure : Option String)
    (_run_id : Option String) : List SSEvent :=
  match failure with
  | none => produced.filterMap chat_forward ++ [SSEvent.done]
  | some msg =>
    produced.filterMap chat_forward ++
      [SSEvent.errorData "Stream interrupted" msg, SSEvent.done]

/-- Whether an SSE event carries the given string in one of its error-dict
fields (the formalisation of "an error event containing the run
identifier"). -/
def ssEventMentions (needle : String) : SSEvent → Bool
  | SSEvent.errorData err msg => err == needle || msg == needle
  | _ => false

/-- ASCII whitespace, the characters matched by the regex class `\s` on the
ASCII inputs of these claims. -/
def isPySpace (c : Char) : Bool :=
  c == ' ' || c == '\t' || c == '\n' || c == '\r' || c == '\x0b' || c == '\x0c'

/-- Lower-casing, `str.lower`. -/
def toLowerL (s : List Char) : List Char := s.map Char.toLower

/-- Does `pat` occur at the head of `s`? -/
def prefixAt : List Char → List Char → Bool
  | [], _ => true
  | _ :: _, [] => false
  | p :: ps, c :: cs => p == c && prefixAt ps cs

/-- `str.find`: the index of the first occurrence of `pat`, `none` when
absent. -/
def findSub (pat : List Char) : List Char → Option Nat
  | [] => if prefixAt pat [] then some 0 else none
  | c :: t =>
    if prefixAt pat (c :: t) then some 0
    else (findSub pat t).map (fun i => i + 1)

/-- The Python `in` substring test. -/
def containsSub (hay pat : List Char) : Bool := (findSub pat hay).isSome

/-- `"\n" in s`. -/
def hasNewline (s : List Char) : Bool := s.any (fun c => c == '\n')

/-- Case-insensitive literal match: strip `pat` from the head of `s`,
returning the rest. -/
def stripCI : List Char → List Char → Option (List Char)
  | [], s => some s
  | _ :: _, [] => none
  | p :: ps, c :: cs => if p.toLower = c.toLower then stripCI ps cs else none

/-- Match `https?://` case-insensitively at the head of `s`, returning the
matched scheme text (original casing) and the rest.  This is the
deterministic unfolding of the regex alternative: the greedy optional `s`
is taken when a lower-cased `s` follows `http`, and the backtracking branch
(`://` starting at that `s`) can never succeed, faithfully to
`re`'s backtracking. -/
def matchUrlScheme (s : List Char) : Option (List Char × List Char) :=
  match stripCI "http".data s with
  | none => none
  | some s1 =>
    match s1 with
    | [] => none
    | c :: rest1 =>
      if c.toLower = 's' then
        match stripCI "://".data rest1 with
        | some r => some (s.take 8, r)
        | none =>
          match stripCI "://".data (c :: rest1) with
          | some r => some (s.take 7, r)
          | none => none
      else
        match stripCI "://".data (c :: rest1) with
        | some r => some (s.take 7, r)
        | none => none

/-- Try to match `<label>\s*:\s*(https?://[^\s\n]+)` (case-insensitively)
at the head of `s`, returning the captured group — scheme plus the maximal
non-whitespace run, which must be non-empty. -/
def annotMatchAt (label : List Char) (s : List Char) : Option (List Char) :=
  match stripCI label s with
  | none => none
  | some s1 =>
    match s1.dropWhile isPySpace with
    | ':' :: s3 =>
      match matchUrlScheme (s3.dropWhile isPySpace) with
      | none => none
      | some (scheme, s5) =>
        let body := s5.takeWhile (fun c => !isPySpace c)
        if body.isEmpty then none else some (scheme ++ body)
    | _ => none

/-- `re.search` for the annotation pattern: the match at the leftmost
position where one exists. -/
def annotSearch (label : List Char) : List Char → Option (List Char)
  | [] => annotMatchAt label []
  | c :: t =>
    match annotMatchAt label (c :: t) with
    | some url => some url
    | none => annotSearch label t

/-- JSON string escaping of `json.dumps` for the quote and backslash (the
`\\uXXXX` escapes for control and non-ASCII characters are not modelled;
the URLs in these claims are plain ASCII and a regex capture excludes
whitespace). -/
def jsonEscapeChar (c : Char) : List Char :=
  if c = '"' then ['\\', '"']
  else if c = '\\' then ['\\', '\\']
  else [c]

/-- JSON-escape a captured URL. -/
def jsonEscape (s : List Char) : List Char := (s.map jsonEscapeChar).flatten

/-- `json.dumps({"type": "school_logo", "school_logo": url}) + "\n"`,
the string chunk yielded right after the school-logo dict event
(line 206). -/
def jsonLogoLine (url : List Char) : List Char :=
  "\x7b\"type\": \"school_logo\", \"school_logo\": \"".data ++ jsonEscape url ++
    "\"\x7d\n".data

/-- `json.dumps({"type": "program_link", "program_link": url}) + "\n"`,
the string chunk yielded right after the program-link dict event
(line 231). -/
def jsonProgramLinkLine (url : List Char) : List Char :=
  "\x7b\"type\": \"program_link\", \"program_link\": \"".data ++ jsonEscape url ++
    "\"\x7d\n".data

/-- Events consumed by `stream_workflow` from `graph.astream_events`:
chat-model stream chunks tagged with their graph node, node-end events
carrying a node's output update, and anything else. -/
inductive GraphEvent
  | modelStream (node : String) (content : List Char)
  | chainEnd (node : String) (excluded_ids : Option (List Int))
      (rewritten_query : Option (List Char))
  | other
deriving Repr, DecidableEq

/-- The mutable locals and instance attributes of one `stream_workflow`
invocation (lines 126-138). -/
structure WFState where
  response_type : Option String
  content_yielded : Bool
  line_buffer : List Char
  in_school_logo_line : Bool
  inside_program_section : Bool
  preamble_buffer : List Char
  new_excluded_ids : List Int
  rewritten_query : Option (List Char)
deriving Repr, DecidableEq

/-- `marker = "----program start----"` (line 138). -/
def section_marker : List Char := "----program start----".data

/-- The lower-case school-logo trigger substring (line 185). -/
def logo_label : List Char := "school logo".data

/-- The lower-case program-link trigger substring (lines 214, 239). -/
def link_label : List Char := "program link".data

/-- The preamble phase of grounded-generation chunk handling
(lines 165-179): before the section marker is seen, accumulate the chunk
in the preamble buffer and pass it through; once the marker is found, yield
the marker plus a newline, move the text after the marker into the line
buffer, clear the preamble and enter the section. -/
def preamble_phase (s : WFState) (content : List Char) : WFState × List WFEvent :=
  if !s.inside_program_section then
    match findSub section_marker (s.preamble_buffer ++ content) with
    | none =>
      ({ s with preamble_buffer := s.preamble_buffer ++ content },
       [WFEvent.text content])
    | some idx =>
      ({ s with
          line_buffer := s.line_buffer ++
            (s.preamble_buffer ++ content).drop (idx + section_marker.length),
          preamble_buffer := [],
          inside_program_section := true },
       [WFEvent.text (section_marker ++ ['\n'])])
  else (s, [])

/-- The in-section phase (lines 181-244).  Note the source appends the whole
chunk to `line_buffer` even in the iteration that just found the marker
(line 182) — the post-marker text is then present twice.  A buffered line
containing the school-logo trigger is consumed at the next newline: a
regex match yields the dict event plus its JSON dump as a text chunk; the
buffer is cleared (and the logo flag reset) whether or not the regex
matched.  A program-link line behaves likewise.  Only a newline-terminated
buffer containing neither trigger is flushed as plain text. -/
def section_phase (s : WFState) (content : List Char) : WFState × List WFEvent :=
  if s.inside_program_section then
    let lb := s.line_buffer ++ content
    let in_logo :=
      if containsSub (toLowerL lb) logo_label && !s.in_school_logo_line then true
      else s.in_school_logo_line
    if in_logo && hasNewline lb then
      (({ s with line_buffer := [], in_school_logo_line := false }),
       match annotSearch logo_label lb with
       | some url => [WFEvent.schoolLogo url, WFEvent.text (jsonLogoLine url)]
       | none => [])
    else if containsSub (toLowerL lb) link_label && hasNewline lb then
      (({ s with line_buffer := [], in_school_logo_line := in_logo }),
       match annotSearch link_label lb with
       | some url => [WFEvent.programLink url, WFEvent.text (jsonProgramLinkLine url)]
       | none => [])
    else if !in_logo && !containsSub (toLowerL lb) link_label && hasNewline lb then
      (({ s with line_buffer := [], in_school_logo_line := in_logo }),
       [WFEvent.text lb])
    else
      (({ s with line_buffer := lb, in_school_logo_line := in_logo }), [])
  else (s, [])

/-- One grounded-generation content chunk through both phases
(lines 164-244). -/
def processProgramsChunk (s : WFState) (content : List Char) :
    WFState × List WFEvent :=
  let r1 := preamble_phase s content
  let r2 := section_phase r1.1 content
  (r2.1, r1.2 ++ r2.2)

/-- One graph event through `stream_workflow`'s loop body (lines 141-258):
a chat-model chunk from a streaming node first triggers the one-time
`response_type` metadata event (`"programs"` for `sg_bot`, else `"text"`),
then non-empty content is forwarded — through the marker machinery on the
programs path, verbatim otherwise; a node-end event only updates the
excluded-ids and rewritten-query bookkeeping. -/
def stream_step (s : WFState) (ev : GraphEvent) : WFState × List WFEvent :=
  match ev with
  | GraphEvent.modelStream node content =>
    if streaming_nodes.contains node then
      let stMeta : WFState × List WFEvent :=
        if s.response_type = none then
          let rt := if node = "sg_bot" then "programs" else "text"
          ({ s with response_type := some rt }, [WFEvent.respTypeMeta rt])
        else (s, [])
      if !content.isEmpty then
        let s2 := { stMeta.1 with content_yielded := true }
        if s2.response_type = some "programs" then
          let res := processProgramsChunk s2 content
          (res.1, stMeta.2 ++ res.2)
        else (s2, stMeta.2 ++ [WFEvent.text content])
      else (stMeta.1, stMeta.2)
    else (s, [])
  | GraphEvent.chainEnd _node excluded rq =>
    let s1 :=
      match excluded with
      | some ids => { s with new_excluded_ids := s.new_excluded_ids ++ ids }
      | none => s
    (match rq with
     | some q => { s1 with rewritten_query := some q }
     | none => s1, [])
  | GraphEvent.other => (s, [])

/-- The initial assembler state of one invocation (lines 126-138). -/
def initialWFState (excluded_ids : List Int) : WFState :=
  ⟨none, false, [], false, false, [], excluded_ids, none⟩

/-- Fold the graph events through the loop body, accumulating yields. -/
def run_graph_events (s : WFState) (out : List WFEvent) :
    List GraphEvent → WFState × List WFEvent
  | [] => (s, out)
  | e :: rest =>
    run_graph_events (stream_step s e).1 (out ++ (stream_step s e).2) rest

/-- `stream_workflow` end to end (lines 75-283): fold the events, flush a
leftover non-logo buffer (lines 261-262), and when any content was yielded
append the final metadata dict and the completion marker (lines 268-277). -/
def stream_workflow_events (run_id : Option String) (excluded_ids : List Int)
    (events : List GraphEvent) : List WFEvent :=
  let r := run_graph_events (initialWFState excluded_ids) [] events
  let out :=
    if !r.1.line_buffer.isEmpty && !r.1.in_school_logo_line then
      r.2 ++ [WFEvent.text r.1.line_buffer]
    else r.2
  if r.1.content_yielded then
    out ++ [WFEvent.finalMeta run_id r.1.rewritten_query, WFEvent.streamComplete]
  else out

/-- Is an event the early `response_type` metadata dict? -/
def isRespTypeEvent : WFEvent → Bool
  | WFEvent.respTypeMeta _ => true
  | _ => false

/-- Is an event a plain text chunk (a text delta)? -/
def isTextEvent : WFEvent → Bool
  | WFEvent.text _ => true
  | _ => false

/-- The `response_type` value the loop assigns for a turn whose streaming
node is `n0` (line 149-151): `"programs"` exactly for `sg_bot`. -/
def expected_response_type (n0 : String) : String :=
  if n0 = "sg_bot" then "programs" else "text"

/-- Loop invariant for the metadata-before-text property: before the
`response_type` metadata event is emitted nothing yielded is a metadata or
text event and no content has been buffered or yielded; afterwards exactly
one metadata event has been yielded, its value is the one determined by the
turn's streaming node, every earlier event is neither metadata nor text,
and no later event is a second metadata event. -/
def MetaInv (n0 : String) (s : WFState) (out : List WFEvent) : Prop :=
  match s.response_type with
  | none =>
    out.all (fun e => !isRespTypeEvent e && !isTextEvent e) = true ∧
    s.line_buffer = [] ∧ s.content_yielded = false
  | some v =>
    v = expected_response_type n0 ∧
    ∃ pre post, out = pre ++ WFEvent.respTypeMeta v :: post ∧
      pre.all (fun e => !isRespTypeEvent e && !isTextEvent e) = true ∧
      post.all (fun e => !isRespTypeEvent e) = true

lemma price_condition_conds_no_exclusion (pci : PriceCampusExtraction) :
    ∀ c ∈ price_condition_conds pci, isExclusionCond c = false := by
  intro c hc
  unfold price_condition_conds at hc
  cases hp : pci.price with
  | none => simp only [hp] at hc; simp at hc
  | some p =>
    simp only [hp] at hc
    split at hc
    · split at hc
      · simp only [List.mem_singleton] at hc; subst hc; rfl
      · split at hc
        · simp only [List.mem_singleton] at hc; subst hc; rfl
        · simp at hc
    · simp at hc

lemma primos_conds_no_exclusion (pci : PriceCampusExtraction) :
    ∀ c ∈ primos_conds pci, isExclusionCond c = false := by
  intro c hc
  unfold primos_conds at hc
  split at hc
  · simp at hc; subst hc; rfl
  · simp at hc

lemma mapped_fieldEq_no_exclusion (l : List String) :
    ∀ c ∈ (match l.map Cond.fieldEqTrue with
           | [c] => [c]
           | cs => [Cond.orC cs]), isExclusionCond c = false := by
  intro c hc
  rcases l with _ | ⟨a, t⟩
  · simp at hc; subst hc; rfl
  · rcases t with _ | ⟨b, t2⟩
    · simp at hc; subst hc; rfl
    · simp at hc; subst hc; rfl

lemma language_conds_no_exclusion (pci : PriceCampusExtraction) :
    ∀ c ∈ language_conds pci, isExclusionCond c = false := by
  intro c hc
  unfold language_conds at hc
  cases hl : pci.languages with
  | none => simp only [hl] at hc; simp at hc
  | some langs =>
    simp only [hl] at hc
    split at hc
    · exact mapped_fieldEq_no_exclusion langs c hc
    · simp at hc

lemma entry_level_conds_no_exclusion (el : Option (List String)) :
    ∀ c ∈ entry_level_conds el, isExclusionCond c = false := by
  intro c hc
  unfold entry_level_conds at hc
  rcases el with _ | levels
  · simp at hc
  · simp only at hc
    split at hc
    · exact mapped_fieldEq_no_exclusion levels c hc
    · simp at hc

lemma school_rank_conds_no_exclusion (pci : PriceCampusExtraction) :
    ∀ c ∈ school_rank_conds pci, isExclusionCond c = false := by
  intro c hc
  unfold school_rank_conds at hc
  cases hr : pci.school_rank with
  | none => simp only [hr] at hc; simp at hc
  | some r =>
    simp only [hr] at hc
    split at hc
    · simp only [List.mem_singleton] at hc; subst hc; rfl
    · simp at hc

/-- The five optional segments before the program-type condition are
exclusion-free. -/
lemma base5_no_exclusion (pci : PriceCampusExtraction) (el : Option (List String)) :
    ∀ c ∈ price_condition_conds pci ++ primos_conds pci ++ language_conds pci ++
        entry_level_conds el ++ school_rank_conds pci,
      isExclusionCond c = false := by
  intro c hc
  rcases List.mem_append.mp hc with hc4 | h
  · rcases List.mem_append.mp hc4 with hc3 | h
    · rcases List.mem_append.mp hc3 with hc2 | h
      · rcases List.mem_append.mp hc2 with h | h
        · exact price_condition_conds_no_exclusion pci c h
        · exact primos_conds_no_exclusion pci c h
      · exact language_conds_no_exclusion pci c h
    · exact entry_level_conds_no_exclusion el c h
  · exact school_rank_conds_no_exclusion pci c h

/-- The whole prefix of the conditions list before the optional exclusion
condition (the five segments plus the always-present program-type condition)
is exclusion-free. -/
lemma base6_no_exclusion (pci : PriceCampusExtraction)
    (el : Option (List String)) (pts : List String) :
    ∀ c ∈ price_condition_conds pci ++ primos_conds pci ++ language_conds pci ++
        entry_level_conds el ++ school_rank_conds pci ++ [Cond.programTypeIn pts],
      isExclusionCond c = false := by
  intro c hc
  rcases List.mem_append.mp hc with hc5 | h
  · exact base5_no_exclusion pci el c hc5
  · simp only [List.mem_singleton] at h
    subst h; rfl

lemma combine_conditions_cons_cons (a b : Cond) (t : List Cond) :
    combine_conditions (a :: b :: t) = Cond.andC (a :: b :: t) := rfl

lemma filterHasExclusion_combine_append_singleton (base : List Cond) (x : Cond)
    (hbase : ∀ c ∈ base, isExclusionCond c = false)
    (hx : ∀ cs, x ≠ Cond.andC cs) :
    filterHasExclusion (combine_conditions (base ++ [x])) = isExclusionCond x := by
  rcases base with _ | ⟨a, t⟩
  · simp only [List.nil_append]
    cases x with
    | andC cs => exact absurd rfl (hx cs)
    | priceGte b => rfl
    | priceLte b => rfl
    | primosArrivantEq b => rfl
    | fieldEqTrue f => rfl
    | orC cs => rfl
    | schoolRankLte b => rfl
    | programTypeIn t => rfl
    | programIdNin i => rfl
  · rcases t with _ | ⟨b, t2⟩
    · simp only [List.cons_append, List.nil_append, combine_conditions_cons_cons]
      simp only [filterHasExclusion, List.any_cons, List.any_nil]
      have ha := hbase a (by simp)
      simp [ha]
    · simp only [List.cons_append, combine_conditions_cons_cons]
      simp only [filterHasExclusion, List.any_cons]
      have ha := hbase a (by simp)
      have hb := hbase b (by simp)
      simp only [ha, hb, Bool.false_or]
      rw [List.any_append]
      have ht2 : (t2.any isExclusionCond) = false := by
        rw [List.any_eq_false]
        intro c hc
        simp only [Bool.not_eq_true]
        exact hbase c (by simp [hc])
      simp [ht2]

/-- C5: the built filter contains the `program_id $nin` exclusion condition
iff the exclusion-id list is non-empty and the exclude flag is true; and
with the flag computed from a `REPEAT` retriever intent the filter never
contains an exclusion condition. -/
theorem C5_exclusion_gating :
    (∀ (pts ids : List String) (excl : Bool) (pci : PriceCampusExtraction)
       (el : Option (List String)) (f : Cond),
       create_filter_conditions pts ids excl (some pci) el = Except.ok f →
       (filterHasExclusion f = true ↔ (ids ≠ [] ∧ excl = true)))
    ∧ (∀ (pts ids : List String) (pci : PriceCampusExtraction)
       (el : Option (List String)) (f : Cond),
       create_filter_conditions pts ids (retriever_exclude_flag (some "REPEAT"))
         (some pci) el = Except.ok f →
       filterHasExclusion f = false) := by
  have main : ∀ (pts ids : List String) (excl : Bool) (pci : PriceCampusExtraction)
      (el : Option (List String)) (f : Cond),
      create_filter_conditions pts ids excl (some pci) el = Except.ok f →
      (filterHasExclusion f = true ↔ (ids ≠ [] ∧ excl = true)) := by
    intro pts ids excl pci el f hf
    unfold create_filter_conditions at hf
    simp only [Except.ok.injEq] at hf
    subst hf
    by_cases hgate : ids ≠ [] ∧ excl = true
    · have hexcl : exclusion_conds ids excl = [Cond.programIdNin ids] := by
        unfold exclusion_conds
        rcases hgate with ⟨h1, h2⟩
        cases ids with
        | nil => exact absurd rfl h1
        | cons i t => simp [h2]
      rw [hexcl, filterHasExclusion_combine_append_singleton _ _
        (base6_no_exclusion pci el pts) (by intro cs h; cases h)]
      simp [isExclusionCond, hgate]
    · have hexcl : exclusion_conds ids excl = [] := by
        unfold exclusion_conds
        by_cases hids : ids = []
        · simp [hids]
        · have hexclf : excl = false := by
            cases excl
            · rfl
            · exact absurd ⟨hids, rfl⟩ hgate
          simp [hexclf]
      rw [hexcl, List.append_nil, filterHasExclusion_combine_append_singleton _ _
        (base5_no_exclusion pci el) (by intro cs h; cases h)]
      simp [isExclusionCond, hgate]
  refine ⟨main, ?_⟩
  intro pts ids pci el f hf
  have h := main pts ids (retriever_exclude_flag (some "REPEAT")) pci el f hf
  have hflag : retriever_exclude_flag (some "REPEAT") = false := rfl
  rw [hflag] at h
  by_contra hx
  simp only [Bool.not_eq_false] at hx
  have hcontra := h.mp hx
  exact absurd hcontra.2 (by decide)

/-- Witness for C5: with ids `["p1"]` and the exclude flag true, the built
filter does contain the exclusion condition. -/
theorem C5_exclusion_gating_witness :
    filterHasExclusion
      (Cond.andC [Cond.programTypeIn ["MSc"], Cond.programIdNin ["p1"]]) = true := by
  exact (C5_exclusion_gating.1 ["MSc"] ["p1"] true pciNone none
    (Cond.andC [Cond.programTypeIn ["MSc"], Cond.programIdNin ["p1"]]) rfl).mpr
    ⟨by simp, rfl⟩

/-- C10: `create_filter_conditions` is partial in `price_campus_info` — a
`None` struct always raises (`AttributeError` on the `.price` dereference),
and a present struct always yields a filter. -/
theorem C10_create_filter_conditions_partial_in_price_campus_info :
    (∀ (pts ids : List String) (excl : Bool) (el : Option (List String)),
      ∃ msg, create_filter_conditions pts ids excl none el =
        Except.error (PyError.attributeError msg))
    ∧ (∀ (pts ids : List String) (excl : Bool) (pci : PriceCampusExtraction)
        (el : Option (List String)),
      ∃ f, create_filter_conditions pts ids excl (some pci) el = Except.ok f) := by
  constructor
  · intro pts ids excl el
    exact ⟨_, rfl⟩
  · intro pts ids excl pci el
    exact ⟨_, rfl⟩

/-- C4: calling the search-parameter builder with an empty program-types
list always raises `TypeError` (the source invokes `create_filter_conditions`
with two positional arguments where three are required), for any values of
the other arguments — it never returns the default-catalog filter its own
docstring promises. -/
theorem C4_empty_program_types_raises_type_error :
    ∀ (k : Int) (ids : List String) (pci : Option PriceCampusExtraction)
      (el : Option (List String)) (excl : Bool),
      child_parent_retriever_search_params [] k ids pci el excl =
        Except.error (PyError.typeError
          "create_filter_conditions missing 1 required positional argument: exclude") := by
  intro k ids pci el excl
  rfl

/-! ## Workflow state and graph routing (`app/core/src/workflow.py`, `models.py`) -/

/-- Counterexample for C3: a `question_category` value outside the four
known categories is returned unchanged by the selector (the `.get` default
applies only to an absent key), and the destination mapping has no entry for
it — the graph does not route such a state to the general branch (LangGraph
raises instead). -/
theorem C3_counterexample_unknown_category_not_routed_to_general :
    classification_path_map (route_question_category
      ⟨"hello", [], none, some "banana", none, [], none, none, none, none, none⟩)
      = none := rfl

/-- C3 (amended): each of the four known categories routes to exactly the
matching branch, whose static-edge chain terminates in the matching
generation node; an absent category defaults to the general branch; any
other category value has no destination in the mapping (the graph fails
rather than routing to general). -/
theorem C3_routing_amended :
    ∀ s : State,
      (s.question_category = some "program_selection" →
        classification_path_map (route_question_category s) =
          some "filter_parameters_extraction" ∧
        terminal_generation_node 10 "filter_parameters_extraction" = some "sg_bot")
      ∧ (s.question_category = some "rules" →
        classification_path_map (route_question_category s) = some "rules" ∧
        terminal_generation_node 10 "rules" = some "rules")
      ∧ (s.question_category = some "follow_up" →
        classification_path_map (route_question_category s) = some "follow_up" ∧
        terminal_generation_node 10 "follow_up" = some "follow_up")
      ∧ (s.question_category = some "general" →
        classification_path_map (route_question_category s) = some "general_question" ∧
        terminal_generation_node 10 "general_question" = some "general_question")
      ∧ (s.question_category = none →
        classification_path_map (route_question_category s) = some "general_question")
      ∧ (∀ c, s.question_category = some c →
          c ≠ "program_selection" → c ≠ "rules" → c ≠ "follow_up" → c ≠ "general" →
          classification_path_map (route_question_category s) = none) := by
  intro s
  refine ⟨?_, ?_, ?_, ?_, ?_, ?_⟩
  · intro h
    simp only [route_question_category, h, Option.getD]
    exact ⟨rfl, rfl⟩
  · intro h
    simp only [route_question_category, h, Option.getD]
    exact ⟨rfl, rfl⟩
  · intro h
    simp only [route_question_category, h, Option.getD]
    exact ⟨rfl, rfl⟩
  · intro h
    simp only [route_question_category, h, Option.getD]
    exact ⟨rfl, rfl⟩
  · intro h
    simp only [route_question_category, h, Option.getD]
    rfl
  · intro c h h1 h2 h3 h4
    simp only [route_question_category, h, Option.getD]
    simp [classification_path_map, h1, h2, h3, h4]

/-- Witness for C3 (amended), at a state classified as `rules`. -/
theorem C3_routing_amended_witness :
    classification_path_map (route_question_category
      ⟨"q", [], none, some "rules", none, [], none, none, none, none, none⟩) =
        some "rules" ∧
    terminal_generation_node 10 "rules" = some "rules" :=
  (C3_routing_amended
    ⟨"q", [], none, some "rules", none, [], none, none, none, none, none⟩).2.1 rfl

/-! ## Classification / extraction agents (`app/core/agents/agents.py`) -/

/-- C1 (code bug): the extraction stage fails fast.  When one extractor
raises and the other three succeed, the agent raises the exception instead
of returning the surviving three fields — the `return_exceptions=False`
gather propagates the exception, so no partial update is produced and the
source's own `isinstance(result, Exception)` tolerance loop is dead code. -/
theorem C1_extraction_stage_fails_fast :
    filter_parameters_extraction_agent
      (Except.error "boom")
      (Except.ok pciNone)
      (Except.ok ⟨"NEW"⟩)
      (Except.ok ⟨["bac+3"]⟩) = Except.error "boom" := rfl

/-- Counterexample for C9: after a failed rewrite the downstream stages do
not fall back to the raw user query — the general-question branch reads the
empty string and the grounded-generation branch reads `None`, neither of
which is the raw query `"hello"`. -/
theorem C9_counterexample_fallback_is_not_raw_query :
    general_question_user_input
        (apply_rewrite_update (initialTurnState "hello" [] [])
          (rewrite_query_agent (Except.error "timeout"))) ≠ "hello"
    ∧ general_question_user_input
        (apply_rewrite_update (initialTurnState "hello" [] [])
          (rewrite_query_agent (Except.error "timeout"))) = ""
    ∧ sg_bot_user_input
        (apply_rewrite_update (initialTurnState "hello" [] [])
          (rewrite_query_agent (Except.error "timeout"))) ≠ some "hello"
    ∧ sg_bot_user_input
        (apply_rewrite_update (initialTurnState "hello" [] [])
          (rewrite_query_agent (Except.error "timeout"))) = none := by
  refine ⟨?_, rfl, ?_, rfl⟩
  · intro h
    exact absurd h (by decide)
  · intro h
    exact Option.noConfusion h

/-- C9 (amended): a failed rewrite returns no update, leaving the state —
and in particular `rewritten_query` — unchanged (absent); every downstream
stage then tolerates the absence without raising, by substituting the empty
string (classification, general question) or `None` (follow-up, grounded
generation) for its user input — never the raw query. -/
theorem C9_rewrite_failure_fallback :
    (∀ e, rewrite_query_agent (Except.error e) = none)
    ∧ (∀ (s : State) e, apply_rewrite_update s (rewrite_query_agent (Except.error e)) = s)
    ∧ (∀ s : State, s.rewritten_query = none →
        classification_user_input s = "" ∧ general_question_user_input s = "" ∧
        follow_up_user_input s = none ∧ sg_bot_user_input s = none) := by
  refine ⟨fun e => rfl, fun s e => rfl, ?_⟩
  intro s h
  simp [classification_user_input, general_question_user_input,
    follow_up_user_input, sg_bot_user_input, h]

/-- Witness for C9 (amended), at a fresh turn state whose rewrite failed. -/
theorem C9_rewrite_failure_fallback_witness :
    classification_user_input (initialTurnState "hi" [] []) = "" ∧
    general_question_user_input (initialTurnState "hi" [] []) = "" ∧
    follow_up_user_input (initialTurnState "hi" [] []) = none ∧
    sg_bot_user_input (initialTurnState "hi" [] []) = none :=
  C9_rewrite_failure_fallback.2.2 (initialTurnState "hi" [] []) rfl

/-! ## Two-stage retrieval engine (`app/core/retrievers/retrievers.py`) -/

/-- Counterexample for C2: when the parent-JSON read fails, `multiple_invoke`
returns the dict `{"content": []}` with no `ids` key — which is not the
claimed value `{content: [], ids: []}`. -/
theorem C2_counterexample_failure_value_has_no_ids_key :
    ChildParentRetriever_multiple_invoke
      ⟨⟨true, true, true, Except.ok []⟩, ⟨true, true, true, Except.ok []⟩,
       ⟨true, true, true, Except.ok []⟩,
       Except.error "IOError: parent json unreadable"⟩
      ⟨"q", none⟩ = ⟨[], none⟩
    ∧ (⟨[], none⟩ : RetrieverResult) ≠ (⟨[], some []⟩ : RetrieverResult) := by
  refine ⟨rfl, ?_⟩
  intro h
  have := congrArg RetrieverResult.ids h
  exact Option.noConfusion this

/-- C2 (amended): `multiple_invoke` never raises for any environment and
config — every internal failure of its body is caught and mapped to exactly
`{"content": []}` (no `ids` key), while every successful body run is
returned unchanged and always carries an `ids` key. -/
theorem C2_multiple_invoke_never_raises_amended :
    ∀ (env : RetrieverEnv) (cfg : RetrieverConfig),
      (∀ e, ChildParentRetriever_multiple_invoke_unhandled env cfg = Except.error e →
        ChildParentRetriever_multiple_invoke env cfg = ⟨[], none⟩)
      ∧ (∀ r, ChildParentRetriever_multiple_invoke_unhandled env cfg = Except.ok r →
        ChildParentRetriever_multiple_invoke env cfg = r ∧ ∃ l, r.ids = some l) := by
  intro env cfg
  constructor
  · intro e he
    unfold ChildParentRetriever_multiple_invoke
    rw [he]
  · intro r hr
    have h1 : ChildParentRetriever_multiple_invoke env cfg = r := by
      unfold ChildParentRetriever_multiple_invoke
      rw [hr]
    refine ⟨h1, ?_⟩
    cases hpj : env.parent_json with
    | error e =>
      have hval : ChildParentRetriever_multiple_invoke_unhandled env cfg =
          Except.error e := by
        unfold ChildParentRetriever_multiple_invoke_unhandled
        rw [hpj]
      rw [hval] at hr
      exact Except.noConfusion hr
    | ok parent_docs =>
      cases hm : ((FilterRetriever_invoke env.grande_ecole cfg ++
          FilterRetriever_invoke env.specialization cfg ++
          FilterRetriever_invoke env.ecole_specialisee cfg).mapM
            (fun d => d.program_id)) with
      | none =>
        have hval : ChildParentRetriever_multiple_invoke_unhandled env cfg =
            Except.error "KeyError: program_id" := by
          unfold ChildParentRetriever_multiple_invoke_unhandled
          rw [hpj, hm]
        rw [hval] at hr
        exact Except.noConfusion hr
      | some ids =>
        have hval : ChildParentRetriever_multiple_invoke_unhandled env cfg =
            Except.ok ⟨(parent_docs.filter (fun kv => ids.contains kv.1)).map
              (fun kv => kv.2), some ids⟩ := by
          unfold ChildParentRetriever_multiple_invoke_unhandled
          rw [hpj, hm]
        rw [hval] at hr
        cases hr
        exact ⟨ids, rfl⟩

/-- Witness for C2 (amended): applied to an environment whose parent read
fails, the caught failure yields the no-`ids` fallback dict. -/
theorem C2_multiple_invoke_never_raises_amended_witness :
    ChildParentRetriever_multiple_invoke
      ⟨⟨true, true, true, Except.ok []⟩, ⟨true, true, true, Except.ok []⟩,
       ⟨true, true, true, Except.ok []⟩, Except.error "IOError"⟩
      ⟨"query", none⟩ = ⟨[], none⟩ :=
  (C2_multiple_invoke_never_raises_amended
    ⟨⟨true, true, true, Except.ok []⟩, ⟨true, true, true, Except.ok []⟩,
     ⟨true, true, true, Except.ok []⟩, Except.error "IOError"⟩
    ⟨"query", none⟩).1 "IOError" rfl

/-! ## SSE streaming layer (`app/api/services/chat_service.py`) -/

/-- Counterexample for C6: a failing stream with a known run identifier
`"run-42"` emits the error event `{"error": "Stream interrupted",
"message": "boom"}` — no field of any emitted event carries the run
identifier, contrary to the claim. -/
theorem C6_counterexample_error_event_lacks_run_id :
    ChatService_stream_chat [] (some "boom") (some "run-42") =
      [SSEvent.errorData "Stream interrupted" "boom", SSEvent.done]
    ∧ (ChatService_stream_chat [] (some "boom") (some "run-42")).all
        (fun e => !ssEventMentions "run-42" e) = true := by
  exact ⟨rfl, by decide⟩

/-- C6 (amended): for every produced prefix and failure mode the output
ends with the `[DONE]` terminal marker, and on an exception the event
immediately before the terminal marker is the error event carrying the
fixed `"Stream interrupted"` tag and the exception message (not the run
identifier). -/
theorem C6_stream_always_terminated :
    ∀ (produced : List WFEvent) (failure : Option String) (run_id : Option String),
      ((ChatService_stream_chat produced failure run_id).getLast? = some SSEvent.done)
      ∧ (∀ msg, failure = some msg →
          (ChatService_stream_chat produced failure run_id).dropLast.getLast? =
            some (SSEvent.errorData "Stream interrupted" msg)) := by
  intro produced failure run_id
  constructor
  · cases failure with
    | none =>
      unfold ChatService_stream_chat
      rw [List.getLast?_concat]
    | some msg =>
      unfold ChatService_stream_chat
      dsimp only
      have hsplit : produced.filterMap chat_forward ++
          [SSEvent.errorData "Stream interrupted" msg, SSEvent.done] =
          (produced.filterMap chat_forward ++
            [SSEvent.errorData "Stream interrupted" msg]) ++ [SSEvent.done] := by
        rw [List.append_assoc]
        rfl
      rw [hsplit, List.getLast?_concat]
  · intro msg hmsg
    subst hmsg
    unfold ChatService_stream_chat
    dsimp only
    have hsplit : produced.filterMap chat_forward ++
        [SSEvent.errorData "Stream interrupted" msg, SSEvent.done] =
        (produced.filterMap chat_forward ++
          [SSEvent.errorData "Stream interrupted" msg]) ++ [SSEvent.done] := by
      rw [List.append_assoc]
      rfl
    rw [hsplit, List.dropLast_concat, List.getLast?_concat]

/-- Witness for C6 (amended): a one-chunk stream that then raises. -/
theorem C6_stream_always_terminated_witness :
    (ChatService_stream_chat [WFEvent.text ['h', 'i']] (some "boom")
        none).dropLast.getLast? =
      some (SSEvent.errorData "Stream interrupted" "boom") :=
  (C6_stream_always_terminated [WFEvent.text ['h', 'i']] (some "boom") none).2
    "boom" rfl

/-! ## Streaming response assembler (`app/core/src/workflow.py`, lines 75-283)

Strings handled character-wise are `List Char`.  The helpers below model the
Python string operations used by `stream_workflow`: substring search
(`str.find`, `in`), lower-casing, and the two annotation regexes. -/

/-- Counterexample for C7: inside the program section, a line containing
the trigger substring `school logo` but not matching the URL pattern (an
"other line", in the claim's terms) is silently dropped at its newline —
it is neither replaced by an event nor flushed as a text delta, so not all
non-annotation lines are flushed. -/
theorem C7_counterexample_trigger_line_dropped :
    stream_workflow_events none []
      [GraphEvent.modelStream "sg_bot" "----program start----".data,
       GraphEvent.modelStream "sg_bot" "the school logo is large\n".data] =
      [WFEvent.respTypeMeta "programs",
       WFEvent.text "----program start----\n".data,
       WFEvent.finalMeta none none, WFEvent.streamComplete]
    ∧ (stream_workflow_events none []
        [GraphEvent.modelStream "sg_bot" "----program start----".data,
         GraphEvent.modelStream "sg_bot" "the school logo is large\n".data]).all
        (fun e => !(match e with
                    | WFEvent.text s => containsSub s "school logo".data
                    | _ => false)) = true := by
  constructor
  · rfl
  · decide

-- Helper lemmas for the amended C7 statement: evaluating the annotation
-- machinery on a school-logo line with a symbolic URL tail.

lemma takeWhile_append_all_true (p : Char → Bool) (xs ys : List Char)
    (h : xs.all p = true) :
    (xs ++ ys).takeWhile p = xs ++ ys.takeWhile p := by
  induction xs with
  | nil => simp
  | cons a t ih =>
    simp only [List.all_cons, Bool.and_eq_true] at h
    simp [List.takeWhile_cons, h.1, ih h.2]

lemma takeWhile_nonspace_newline (rest : List Char)
    (h : rest.all (fun c => !isPySpace c) = true) :
    (rest ++ ['\n']).takeWhile (fun c => !isPySpace c) = rest := by
  rw [takeWhile_append_all_true _ _ _ h]
  simp [List.takeWhile_cons, isPySpace]

lemma logo_line_has_newline (rest : List Char) :
    hasNewline ("school logo: http://".data ++ (rest ++ ['\n'])) = true := by
  simp [hasNewline, List.any_append]

lemma logo_line_contains_label (rest : List Char) :
    containsSub (toLowerL ("school logo: http://".data ++ (rest ++ ['\n'])))
      logo_label = true := rfl

lemma annotMatchAt_logo_line (rest : List Char) (h1 : rest ≠ [])
    (h2 : rest.all (fun c => !isPySpace c) = true) :
    annotMatchAt logo_label ("school logo: http://".data ++ (rest ++ ['\n'])) =
      some ("http://".data ++ rest) := by
  have hred : annotMatchAt logo_label
      ("school logo: http://".data ++ (rest ++ ['\n'])) =
      (if ((rest ++ ['\n']).takeWhile (fun c => !isPySpace c)).isEmpty then none
       else some ("http://".data ++
         (rest ++ ['\n']).takeWhile (fun c => !isPySpace c))) := rfl
  rw [hred, takeWhile_nonspace_newline rest h2]
  cases rest with
  | nil => exact absurd rfl h1
  | cons a t => rfl

lemma annotSearch_logo_line (rest : List Char) (h1 : rest ≠ [])
    (h2 : rest.all (fun c => !isPySpace c) = true) :
    annotSearch logo_label ("school logo: http://".data ++ (rest ++ ['\n'])) =
      some ("http://".data ++ rest) := by
  have hx : ("school logo: http://".data ++ (rest ++ ['\n'])) =
      's' :: ("chool logo: http://".data ++ (rest ++ ['\n'])) := rfl
  rw [hx]
  simp only [annotSearch]
  rw [← hx, annotMatchAt_logo_line rest h1 h2]

lemma section_phase_logo_hit (s : WFState) (content u : List Char)
    (hin : s.inside_program_section = true) (hlb : s.line_buffer = [])
    (hflag : s.in_school_logo_line = false)
    (hcontains : containsSub (toLowerL content) logo_label = true)
    (hnl : hasNewline content = true)
    (hsearch : annotSearch logo_label content = some u) :
    section_phase s content =
      ({ s with line_buffer := [], in_school_logo_line := false },
       [WFEvent.schoolLogo u, WFEvent.text (jsonLogoLine u)]) := by
  unfold section_phase
  simp only [hin, hlb, hflag, List.nil_append, hcontains, hnl]
  simp [hsearch]

lemma processProgramsChunk_logo_line (rest : List Char) (h1 : rest ≠ [])
    (h2 : rest.all (fun c => !isPySpace c) = true) :
    processProgramsChunk ⟨some "programs", true, [], false, true, [], [], none⟩
      ("school logo: http://".data ++ (rest ++ ['\n'])) =
      (⟨some "programs", true, [], false, true, [], [], none⟩,
       [WFEvent.schoolLogo ("http://".data ++ rest),
        WFEvent.text (jsonLogoLine ("http://".data ++ rest))]) := by
  have hpre : preamble_phase ⟨some "programs", true, [], false, true, [], [], none⟩
      ("school logo: http://".data ++ (rest ++ ['\n'])) =
      (⟨some "programs", true, [], false, true, [], [], none⟩, []) := rfl
  have hsec := section_phase_logo_hit
    ⟨some "programs", true, [], false, true, [], [], none⟩
    ("school logo: http://".data ++ (rest ++ ['\n']))
    ("http://".data ++ rest) rfl rfl rfl
    (logo_line_contains_label rest) (logo_line_has_newline rest)
    (annotSearch_logo_line rest h1 h2)
  dsimp only at hsec
  unfold processProgramsChunk
  rw [hpre]
  dsimp only
  rw [hsec]
  rfl

lemma stream_step_logo_line (rest : List Char) (h1 : rest ≠ [])
    (h2 : rest.all (fun c => !isPySpace c) = true) :
    stream_step ⟨some "programs", true, [], false, true, [], [], none⟩
      (GraphEvent.modelStream "sg_bot"
        ("school logo: http://".data ++ (rest ++ ['\n']))) =
      (⟨some "programs", true, [], false, true, [], [], none⟩,
       [WFEvent.schoolLogo ("http://".data ++ rest),
        WFEvent.text (jsonLogoLine ("http://".data ++ rest))]) := by
  have h0 : stream_step ⟨some "programs", true, [], false, true, [], [], none⟩
      (GraphEvent.modelStream "sg_bot"
        ("school logo: http://".data ++ (rest ++ ['\n']))) =
      ((processProgramsChunk ⟨some "programs", true, [], false, true, [], [], none⟩
          ("school logo: http://".data ++ (rest ++ ['\n']))).1,
       [] ++ (processProgramsChunk ⟨some "programs", true, [], false, true, [], [], none⟩
          ("school logo: http://".data ++ (rest ++ ['\n']))).2) := rfl
  rw [h0, processProgramsChunk_logo_line rest h1 h2]
  rfl

lemma run_events_logo_line (rest : List Char) (h1 : rest ≠ [])
    (h2 : rest.all (fun c => !isPySpace c) = true) :
    run_graph_events (initialWFState []) []
      [GraphEvent.modelStream "sg_bot" "----program start----\n".data,
       GraphEvent.modelStream "sg_bot"
         ("school logo: http://".data ++ (rest ++ ['\n']))] =
      (⟨some "programs", true, [], false, true, [], [], none⟩,
       [WFEvent.respTypeMeta "programs",
        WFEvent.text "----program start----\n".data,
        WFEvent.text ('\n' :: "----program start----\n".data)] ++
        [WFEvent.schoolLogo ("http://".data ++ rest),
         WFEvent.text (jsonLogoLine ("http://".data ++ rest))]) := by
  have hfirst : run_graph_events (initialWFState []) []
      [GraphEvent.modelStream "sg_bot" "----program start----\n".data,
       GraphEvent.modelStream "sg_bot"
         ("school logo: http://".data ++ (rest ++ ['\n']))] =
      run_graph_events ⟨some "programs", true, [], false, true, [], [], none⟩
        [WFEvent.respTypeMeta "programs",
         WFEvent.text "----program start----\n".data,
         WFEvent.text ('\n' :: "----program start----\n".data)]
        [GraphEvent.modelStream "sg_bot"
          ("school logo: http://".data ++ (rest ++ ['\n']))] := rfl
  rw [hfirst]
  simp only [run_graph_events]
  rw [stream_step_logo_line rest h1 h2]


lemma preamble_phase_no_respType (s : WFState) (c : List Char) :
    ∀ e ∈ (preamble_phase s c).2, isRespTypeEvent e = false := by
  intro e he
  unfold preamble_phase at he
  split at he
  · split at he
    · simp at he; subst he; rfl
    · simp at he; subst he; rfl
  · simp at he

lemma section_phase_no_respType (s : WFState) (c : List Char) :
    ∀ e ∈ (section_phase s c).2, isRespTypeEvent e = false := by
  intro e he
  unfold section_phase at he
  split at he
  · dsimp only at he
    repeat' split at he
    all_goals simp at he
    all_goals (rcases he with rfl | rfl) <;> rfl
  · simp at he

lemma processProgramsChunk_no_respType (s : WFState) (c : List Char) :
    ∀ e ∈ (processProgramsChunk s c).2, isRespTypeEvent e = false := by
  intro e he
  unfold processProgramsChunk at he
  dsimp only at he
  rcases List.mem_append.mp he with h | h
  · exact preamble_phase_no_respType s c e h
  · exact section_phase_no_respType (preamble_phase s c).1 c e h

lemma preamble_phase_preserves (s : WFState) (c : List Char) :
    (preamble_phase s c).1.response_type = s.response_type ∧
    (preamble_phase s c).1.content_yielded = s.content_yielded := by
  unfold preamble_phase
  split
  · split <;> exact ⟨rfl, rfl⟩
  · exact ⟨rfl, rfl⟩

lemma section_phase_preserves (s : WFState) (c : List Char) :
    (section_phase s c).1.response_type = s.response_type ∧
    (section_phase s c).1.content_yielded = s.content_yielded := by
  unfold section_phase
  split
  · dsimp only
    repeat' split
    all_goals exact ⟨rfl, rfl⟩
  · exact ⟨rfl, rfl⟩

lemma processProgramsChunk_preserves (s : WFState) (c : List Char) :
    (processProgramsChunk s c).1.response_type = s.response_type ∧
    (processProgramsChunk s c).1.content_yielded = s.content_yielded := by
  unfold processProgramsChunk
  dsimp only
  refine ⟨?_, ?_⟩
  · rw [(section_phase_preserves (preamble_phase s c).1 c).1,
      (preamble_phase_preserves s c).1]
  · rw [(section_phase_preserves (preamble_phase s c).1 c).2,
      (preamble_phase_preserves s c).2]

lemma all_not_respType_of_mem {L : List WFEvent}
    (h : ∀ e ∈ L, isRespTypeEvent e = false) :
    L.all (fun e => !isRespTypeEvent e) = true := by
  rw [List.all_eq_true]
  intro e he
  rw [h e he]
  rfl

lemma MetaInv_some_append (n0 v : String) (s s' : WFState)
    (out extra : List WFEvent)
    (hs : s.response_type = some v) (hs' : s'.response_type = some v)
    (hinv : MetaInv n0 s out)
    (hextra : extra.all (fun e => !isRespTypeEvent e) = true) :
    MetaInv n0 s' (out ++ extra) := by
  unfold MetaInv at hinv ⊢
  rw [hs] at hinv
  rw [hs']
  obtain ⟨hv, pre, post, hout, hpre, hpost⟩ := hinv
  refine ⟨hv, pre, post ++ extra, ?_, hpre, ?_⟩
  · rw [hout]
    simp
  · simp [List.all_append, hpost, hextra]

lemma MetaInv_set_respType (n0 v : String) (s' : WFState)
    (out extra : List WFEvent)
    (hout : out.all (fun e => !isRespTypeEvent e && !isTextEvent e) = true)
    (hs' : s'.response_type = some v) (hv : v = expected_response_type n0)
    (hextra : extra.all (fun e => !isRespTypeEvent e) = true) :
    MetaInv n0 s' (out ++ WFEvent.respTypeMeta v :: extra) := by
  unfold MetaInv
  rw [hs']
  exact ⟨hv, out, extra, rfl, hout, hextra⟩

lemma stream_step_MetaInv (n0 : String) (s : WFState) (out : List WFEvent)
    (ev : GraphEvent)
    (hev : ∀ node c, ev = GraphEvent.modelStream node c →
      streaming_nodes.contains node = true → node = n0)
    (hinv : MetaInv n0 s out) :
    MetaInv n0 (stream_step s ev).1 (out ++ (stream_step s ev).2) := by
  cases ev with
  | other =>
    simpa [stream_step] using hinv
  | chainEnd node excl rq =>
    have h1 : (stream_step s (GraphEvent.chainEnd node excl rq)).2 = [] := by
      unfold stream_step
      cases excl <;> cases rq <;> rfl
    have h2 : (stream_step s (GraphEvent.chainEnd node excl rq)).1.response_type
        = s.response_type := by
      unfold stream_step
      cases excl <;> cases rq <;> rfl
    have h3 : (stream_step s (GraphEvent.chainEnd node excl rq)).1.line_buffer
        = s.line_buffer := by
      unfold stream_step
      cases excl <;> cases rq <;> rfl
    have h4 : (stream_step s (GraphEvent.chainEnd node excl rq)).1.content_yielded
        = s.content_yielded := by
      unfold stream_step
      cases excl <;> cases rq <;> rfl
    rw [h1, List.append_nil]
    unfold MetaInv at hinv ⊢
    rw [h2, h3, h4]
    exact hinv
  | modelStream node content =>
    by_cases hsn : streaming_nodes.contains node = true
    · have hnode := hev node content rfl hsn
      subst hnode
      have hmem : node ∈ streaming_nodes := by simpa using hsn
      cases hrt : s.response_type with
      | none =>
        have hinv' := hinv
        unfold MetaInv at hinv'
        rw [hrt] at hinv'
        obtain ⟨hall, hlb, hcy⟩ := hinv'
        by_cases hb : node = "sg_bot"
        · subst hb
          by_cases hc : content.isEmpty = true
          · have hstep : stream_step s (GraphEvent.modelStream "sg_bot" content) =
                ({ s with response_type := some "programs" },
                 [WFEvent.respTypeMeta "programs"]) := by
              unfold stream_step
              simp [hmem, hrt, hc]
            rw [hstep]
            exact MetaInv_set_respType "sg_bot" "programs" _ out [] hall rfl rfl
              (by simp)
          · have h2 : (stream_step s (GraphEvent.modelStream "sg_bot" content)).2 =
                WFEvent.respTypeMeta "programs" ::
                  (processProgramsChunk
                    { s with
                        response_type := some "programs"
                        content_yielded := true } content).2 := by
              unfold stream_step
              simp [hmem, hrt, hc]
            have h1r : (stream_step s
                (GraphEvent.modelStream "sg_bot" content)).1.response_type =
                some "programs" := by
              unfold stream_step
              simp [hmem, hrt, hc]
              rw [(processProgramsChunk_preserves _ _).1]
            rw [h2]
            exact MetaInv_set_respType "sg_bot" "programs" _ out _ hall h1r rfl
              (all_not_respType_of_mem (processProgramsChunk_no_respType _ _))
        · by_cases hc : content.isEmpty = true
          · have hstep : stream_step s (GraphEvent.modelStream node content) =
                ({ s with response_type := some "text" },
                 [WFEvent.respTypeMeta "text"]) := by
              unfold stream_step
              simp [hmem, hrt, hc, hb]
            rw [hstep]
            exact MetaInv_set_respType node "text" _ out [] hall rfl
              (by simp [expected_response_type, hb]) (by simp)
          · have h2 : (stream_step s (GraphEvent.modelStream node content)).2 =
                WFEvent.respTypeMeta "text" :: [WFEvent.text content] := by
              unfold stream_step
              simp [hmem, hrt, hc, hb]
            have h1r : (stream_step s
                (GraphEvent.modelStream node content)).1.response_type =
                some "text" := by
              unfold stream_step
              simp [hmem, hrt, hc, hb]
            rw [h2]
            exact MetaInv_set_respType node "text" _ out _ hall h1r
              (by simp [expected_response_type, hb]) (by simp [isRespTypeEvent])
      | some v =>
        by_cases hc : content.isEmpty = true
        · have hstep : stream_step s (GraphEvent.modelStream node content) =
              (s, []) := by
            unfold stream_step
            simp [hmem, hrt, hc]
          rw [hstep, List.append_nil]
          exact hinv
        · by_cases hp : v = "programs"
          · subst hp
            have h2 : (stream_step s (GraphEvent.modelStream node content)).2 =
                (processProgramsChunk
                  { s with content_yielded := true } content).2 := by
              unfold stream_step
              simp [hmem, hrt, hc]
            have h1r : (stream_step s
                (GraphEvent.modelStream node content)).1.response_type =
                some "programs" := by
              unfold stream_step
              simp [hmem, hrt, hc]
              rw [(processProgramsChunk_preserves _ _).1]
            rw [h2]
            exact MetaInv_some_append node "programs" s _ out _ hrt h1r hinv
              (all_not_respType_of_mem (processProgramsChunk_no_respType _ _))
          · have h2 : (stream_step s (GraphEvent.modelStream node content)).2 =
                [WFEvent.text content] := by
              unfold stream_step
              simp [hmem, hrt, hc, hp]
            have h1r : (stream_step s
                (GraphEvent.modelStream node content)).1.response_type =
                some v := by
              unfold stream_step
              simp [hmem, hrt, hc, hp, Option.some.injEq]
            rw [h2]
            exact MetaInv_some_append node v s _ out _ hrt h1r hinv
              (by simp [isRespTypeEvent])
    · have hmem : node ∉ streaming_nodes := by simpa using hsn
      have hstep : stream_step s (GraphEvent.modelStream node content) =
          (s, []) := by
        unfold stream_step
        simp [hmem]
      rw [hstep, List.append_nil]
      exact hinv

lemma MetaInv_initial (n0 : String) (ex : List Int) :
    MetaInv n0 (initialWFState ex) [] := by
  unfold MetaInv initialWFState
  exact ⟨rfl, rfl, rfl⟩

lemma run_graph_events_MetaInv (n0 : String) :
    ∀ (events : List GraphEvent) (s : WFState) (out : List WFEvent),
      (∀ ev ∈ events, ∀ node c, ev = GraphEvent.modelStream node c →
        streaming_nodes.contains node = true → node = n0) →
      MetaInv n0 s out →
      MetaInv n0 (run_graph_events s out events).1
        (run_graph_events s out events).2 := by
  intro events
  induction events with
  | nil =>
    intro s out _ hinv
    simpa [run_graph_events] using hinv
  | cons e rest ih =>
    intro s out hev hinv
    simp only [run_graph_events]
    exact ih (stream_step s e).1 (out ++ (stream_step s e).2)
      (fun ev hm => hev ev (List.mem_cons_of_mem e hm))
      (stream_step_MetaInv n0 s out e
        (fun node c heq => hev e (List.mem_cons_self e rest) node c heq) hinv)

lemma takeWhile_prefix_break {α : Type} (p : α → Bool) (pre : List α) (x : α)
    (rest : List α) (hpre : pre.all p = true) (hx : p x = false) :
    (pre ++ x :: rest).takeWhile p = pre := by
  induction pre with
  | nil => simp [List.takeWhile_cons, hx]
  | cons a t ih =>
    simp only [List.all_cons, Bool.and_eq_true] at hpre
    simp [List.takeWhile_cons, hpre.1, ih hpre.2]

lemma mem_of_mem_takeWhile_aux {α : Type} (p : α → Bool) :
    ∀ (l : List α) (a : α), a ∈ l.takeWhile p → a ∈ l := by
  intro l
  induction l with
  | nil =>
    intro a h
    simp at h
  | cons b t ih =>
    intro a h
    rw [List.takeWhile_cons] at h
    by_cases hb : p b = true
    · rw [if_pos hb] at h
      rcases List.mem_cons.mp h with h1 | h1
      · exact h1 ▸ List.mem_cons_self b t
      · exact List.mem_cons_of_mem b (ih a h1)
    · rw [if_neg hb] at h
      simp at h

/-- C8: in every turn (one `stream_workflow` invocation) whose streaming
chat-model events all come from one terminal node `n0` (the graph routes to
exactly one generation branch per turn), at most one `response_type`
metadata event is emitted, no text delta precedes it, and its value is
`"programs"` exactly when the terminal streaming node is `sg_bot` and
`"text"` otherwise. -/
theorem C8_single_response_type_before_text :
    ∀ (run_id : Option String) (excluded_ids : List Int)
      (events : List GraphEvent) (n0 : String),
      (∀ node c, GraphEvent.modelStream node c ∈ events →
        streaming_nodes.contains node = true → node = n0) →
      (stream_workflow_events run_id excluded_ids events).countP
          (fun e => isRespTypeEvent e) ≤ 1
      ∧ ((stream_workflow_events run_id excluded_ids events).takeWhile
          (fun e => !isRespTypeEvent e)).all (fun e => !isTextEvent e) = true
      ∧ (∀ v, WFEvent.respTypeMeta v ∈
            stream_workflow_events run_id excluded_ids events →
          v = expected_response_type n0) := by
  intro run_id ex events n0 hev
  have hinv := run_graph_events_MetaInv n0 events (initialWFState ex) []
    (fun ev hm node c heq hc => hev node c (heq ▸ hm) hc)
    (MetaInv_initial n0 ex)
  cases hr : run_graph_events (initialWFState ex) [] events with
  | mk s out =>
    rw [hr] at hinv
    dsimp only at hinv
    unfold MetaInv at hinv
    cases hrt : s.response_type with
    | none =>
      rw [hrt] at hinv
      obtain ⟨hall, hlb, hcy⟩ := hinv
      have hsweq : stream_workflow_events run_id ex events = out := by
        unfold stream_workflow_events
        rw [hr]
        dsimp only
        simp [hlb, hcy]
      rw [hsweq]
      refine ⟨?_, ?_, ?_⟩
      · have h0 : out.countP (fun e => isRespTypeEvent e) = 0 := by
          rw [List.countP_eq_zero]
          intro e he
          have h := List.all_eq_true.mp hall e he
          simp only [Bool.and_eq_true, Bool.not_eq_true'] at h
          simp [h.1]
        rw [h0]
        exact Nat.zero_le 1
      · rw [List.all_eq_true]
        intro e he
        have hmem : e ∈ out := mem_of_mem_takeWhile_aux _ out e he
        have h := List.all_eq_true.mp hall e hmem
        simp only [Bool.and_eq_true] at h
        exact h.2
      · intro v hv
        have h := List.all_eq_true.mp hall _ hv
        simp [isRespTypeEvent] at h
    | some v =>
      rw [hrt] at hinv
      obtain ⟨hv, pre, post, hout, hpre, hpost⟩ := hinv
      obtain ⟨extras, hsweq, hex⟩ :
          ∃ extras, stream_workflow_events run_id ex events = out ++ extras ∧
            extras.all (fun e => !isRespTypeEvent e) = true := by
        unfold stream_workflow_events
        rw [hr]
        dsimp only
        by_cases h1 : (!s.line_buffer.isEmpty && !s.in_school_logo_line) = true
        · by_cases h2 : s.content_yielded = true
          · refine ⟨[WFEvent.text s.line_buffer,
              WFEvent.finalMeta run_id s.rewritten_query,
              WFEvent.streamComplete], ?_, by simp [isRespTypeEvent]⟩
            simp [h1, h2]
          · refine ⟨[WFEvent.text s.line_buffer], ?_, by simp [isRespTypeEvent]⟩
            simp [h1, h2]
        · by_cases h2 : s.content_yielded = true
          · refine ⟨[WFEvent.finalMeta run_id s.rewritten_query,
              WFEvent.streamComplete], ?_, by simp [isRespTypeEvent]⟩
            simp [h1, h2]
          · exact ⟨[], by simp [h1, h2], rfl⟩
      have hpre_noRT : ∀ e ∈ pre, isRespTypeEvent e = false := by
        intro e he
        have h := List.all_eq_true.mp hpre e he
        simp only [Bool.and_eq_true, Bool.not_eq_true'] at h
        exact h.1
      have hpre_noText : ∀ e ∈ pre, isTextEvent e = false := by
        intro e he
        have h := List.all_eq_true.mp hpre e he
        simp only [Bool.and_eq_true, Bool.not_eq_true'] at h
        exact h.2
      have hpost_noRT : ∀ e ∈ post ++ extras, isRespTypeEvent e = false := by
        intro e he
        rcases List.mem_append.mp he with h | h
        · have h' := List.all_eq_true.mp hpost e h
          simpa using h'
        · have h' := List.all_eq_true.mp hex e h
          simpa using h'
      have hform : stream_workflow_events run_id ex events =
          pre ++ WFEvent.respTypeMeta v :: (post ++ extras) := by
        rw [hsweq, hout]
        simp
      rw [hform]
      refine ⟨?_, ?_, ?_⟩
      · have hc1 : pre.countP (fun e => isRespTypeEvent e) = 0 := by
          rw [List.countP_eq_zero]
          intro a ha
          simp [hpre_noRT a ha]
        have hc2 : (post ++ extras).countP (fun e => isRespTypeEvent e) = 0 := by
          rw [List.countP_eq_zero]
          intro a ha
          simp [hpost_noRT a ha]
        rw [List.countP_append, List.countP_cons, hc1, hc2]
        simp [isRespTypeEvent]
      · have htw : (pre ++ WFEvent.respTypeMeta v :: (post ++ extras)).takeWhile
            (fun e => !isRespTypeEvent e) = pre := by
          refine takeWhile_prefix_break _ pre _ _ ?_ (by simp [isRespTypeEvent])
          rw [List.all_eq_true]
          intro a ha
          simp [hpre_noRT a ha]
        rw [htw, List.all_eq_true]
        intro e he
        simp [hpre_noText e he]
      · intro v' hv'
        rcases List.mem_append.mp hv' with h | h
        · have h' := hpre_noRT _ h
          simp [isRespTypeEvent] at h'
        · rcases List.mem_cons.mp h with h1 | h1
          · have h2 := WFEvent.respTypeMeta.inj h1
            rw [h2, ← hv]
          · have h' := hpost_noRT _ h1
            simp [isRespTypeEvent] at h'

/-- Witness for C8, at a single-chunk grounded-generation turn. -/
theorem C8_single_response_type_before_text_witness :
    (stream_workflow_events none []
        [GraphEvent.modelStream "sg_bot" ['h', 'i']]).countP
      (fun e => isRespTypeEvent e) ≤ 1 :=
  (C8_single_response_type_before_text none []
    [GraphEvent.modelStream "sg_bot" ['h', 'i']] "sg_bot"
    (by
      intro node c hm _
      simp only [List.mem_singleton] at hm
      cases hm
      rfl)).1

-- Substring machinery for showing the school-logo trigger does not occur in
-- a program-link line with a whitespace-free URL tail: a `prefixAt` match
-- pins every pattern character to the haystack, `findSub` misses when every
-- suffix fails, and lower-casing cannot create a space.

lemma prefixAt_imp_getElem (pat : List Char) :
    ∀ ys, prefixAt pat ys = true → ∀ i, i < pat.length → ys[i]? = pat[i]? := by
  induction pat with
  | nil =>
    intro ys _ i hi
    simp at hi
  | cons p ps ih =>
    intro ys hp i hi
    cases ys with
    | nil => simp [prefixAt] at hp
    | cons y t =>
      simp only [prefixAt, Bool.and_eq_true, beq_iff_eq] at hp
      cases i with
      | zero => simp [hp.1]
      | succ j =>
        simp only [List.length_cons, Nat.succ_lt_succ_iff] at hi
        simpa using ih t hp.2 j hi

lemma findSub_eq_none_of_suffixes (pat : List Char) :
    ∀ hay, (∀ t, t <:+ hay → prefixAt pat t = false) → findSub pat hay = none := by
  intro hay
  induction hay with
  | nil =>
    intro h
    simp only [findSub]
    rw [h [] (List.suffix_refl [])]
    rfl
  | cons a t ih =>
    intro h
    simp only [findSub]
    rw [h (a :: t) (List.suffix_refl (a :: t))]
    rw [ih (fun s hs => h s (hs.trans (List.suffix_cons a t)))]
    rfl

lemma toLower_ne_space (c : Char) (h : c ≠ ' ') : Char.toLower c ≠ ' ' := by
  have hdef : Char.toLower c =
      if c.toNat ≥ 65 ∧ c.toNat ≤ 90 then Char.ofNat (c.toNat + 32) else c := rfl
  rw [hdef]
  split
  · next hcond =>
    obtain ⟨h1, h2⟩ := hcond
    revert h1 h2
    generalize c.toNat = n
    intro h1 h2
    interval_cases n <;> decide
  · exact h

lemma link_line_no_logo_label (rest : List Char)
    (h : rest.all (fun c => !isPySpace c) = true) :
    containsSub (toLowerL ("program link: http://".data ++ (rest ++ ['\n'])))
      logo_label = false := by
  have hL : toLowerL ("program link: http://".data ++ (rest ++ ['\n'])) =
      "program link: http://".data ++ (toLowerL rest ++ ['\n']) := by
    simp only [toLowerL, List.map_append]
    rw [show List.map Char.toLower "program link: http://".data =
      "program link: http://".data from by decide]
    rfl
  rw [hL]
  unfold containsSub
  rw [findSub_eq_none_of_suffixes]
  · rfl
  · intro t ht
    by_contra hx
    simp only [Bool.not_eq_false] at hx
    obtain ⟨pre, hpre⟩ := ht
    have h0 := prefixAt_imp_getElem logo_label t hx 0 (by decide)
    have h6 := prefixAt_imp_getElem logo_label t hx 6 (by decide)
    rw [show logo_label[0]? = some 's' from rfl] at h0
    rw [show logo_label[6]? = some ' ' from rfl] at h6
    have hget0 : ("program link: http://".data ++
        (toLowerL rest ++ ['\n']))[pre.length]? = some 's' := by
      rw [← hpre, List.getElem?_append_right (Nat.le_refl pre.length)]
      simpa using h0
    have hget6 : ("program link: http://".data ++
        (toLowerL rest ++ ['\n']))[pre.length + 6]? = some ' ' := by
      rw [← hpre, List.getElem?_append_right (Nat.le_add_right pre.length 6)]
      simpa using h6
    rcases Nat.lt_or_ge pre.length 21 with hlt | hge
    · have hlt' : pre.length < ("program link: http://".data).length := by
        rw [show ("program link: http://".data).length = 21 from rfl]
        exact hlt
      have hc : ("program link: http://".data)[pre.length]? = some 's' := by
        rw [List.getElem?_append_left hlt'] at hget0
        exact hget0
      have hno : ∀ j, j < 21 → "program link: http://".data[j]? ≠ some 's' := by
        decide
      exact hno pre.length hlt hc
    · have hlen : ("program link: http://".data).length ≤ pre.length + 6 := by
        simp only [show ("program link: http://".data).length = 21 from rfl]
        omega
      rw [List.getElem?_append_right hlen] at hget6
      have hmem : ' ' ∈ toLowerL rest ++ ['\n'] := List.getElem?_mem hget6
      rcases List.mem_append.mp hmem with hm | hm
      · simp only [toLowerL, List.mem_map] at hm
        obtain ⟨r, hr, hrl⟩ := hm
        have hns := List.all_eq_true.mp h r hr
        have hrne : r ≠ ' ' := by
          intro hre
          rw [hre] at hns
          simp [isPySpace] at hns
        exact toLower_ne_space r hrne hrl
      · simp at hm

-- The program-link line with a symbolic whitespace-free URL tail, mirroring
-- the school-logo chain (workflow.py lines 213-234).

lemma link_line_has_newline (rest : List Char) :
    hasNewline ("program link: http://".data ++ (rest ++ ['\n'])) = true := by
  simp [hasNewline, List.any_append]

lemma link_line_contains_label (rest : List Char) :
    containsSub (toLowerL ("program link: http://".data ++ (rest ++ ['\n'])))
      link_label = true := rfl

lemma annotMatchAt_link_line (rest : List Char) (h1 : rest ≠ [])
    (h2 : rest.all (fun c => !isPySpace c) = true) :
    annotMatchAt link_label ("program link: http://".data ++ (rest ++ ['\n'])) =
      some ("http://".data ++ rest) := by
  have hred : annotMatchAt link_label
      ("program link: http://".data ++ (rest ++ ['\n'])) =
      (if ((rest ++ ['\n']).takeWhile (fun c => !isPySpace c)).isEmpty then none
       else some ("http://".data ++
         (rest ++ ['\n']).takeWhile (fun c => !isPySpace c))) := rfl
  rw [hred, takeWhile_nonspace_newline rest h2]
  cases rest with
  | nil => exact absurd rfl h1
  | cons a t => rfl

lemma annotSearch_link_line (rest : List Char) (h1 : rest ≠ [])
    (h2 : rest.all (fun c => !isPySpace c) = true) :
    annotSearch link_label ("program link: http://".data ++ (rest ++ ['\n'])) =
      some ("http://".data ++ rest) := by
  have hx : ("program link: http://".data ++ (rest ++ ['\n'])) =
      'p' :: ("rogram link: http://".data ++ (rest ++ ['\n'])) := rfl
  rw [hx]
  simp only [annotSearch]
  rw [← hx, annotMatchAt_link_line rest h1 h2]

lemma section_phase_link_hit (s : WFState) (content u : List Char)
    (hin : s.inside_program_section = true) (hlb : s.line_buffer = [])
    (hflag : s.in_school_logo_line = false)
    (hnologo : containsSub (toLowerL content) logo_label = false)
    (hcontains : containsSub (toLowerL content) link_label = true)
    (hnl : hasNewline content = true)
    (hsearch : annotSearch link_label content = some u) :
    section_phase s content =
      ({ s with line_buffer := [], in_school_logo_line := false },
       [WFEvent.programLink u, WFEvent.text (jsonProgramLinkLine u)]) := by
  unfold section_phase
  simp only [hin, hlb, hflag, List.nil_append, hnologo, hcontains, hnl]
  simp [hsearch]

lemma processProgramsChunk_link_line (rest : List Char) (h1 : rest ≠ [])
    (h2 : rest.all (fun c => !isPySpace c) = true) :
    processProgramsChunk ⟨some "programs", true, [], false, true, [], [], none⟩
      ("program link: http://".data ++ (rest ++ ['\n'])) =
      (⟨some "programs", true, [], false, true, [], [], none⟩,
       [WFEvent.programLink ("http://".data ++ rest),
        WFEvent.text (jsonProgramLinkLine ("http://".data ++ rest))]) := by
  have hpre : preamble_phase ⟨some "programs", true, [], false, true, [], [], none⟩
      ("program link: http://".data ++ (rest ++ ['\n'])) =
      (⟨some "programs", true, [], false, true, [], [], none⟩, []) := rfl
  have hsec := section_phase_link_hit
    ⟨some "programs", true, [], false, true, [], [], none⟩
    ("program link: http://".data ++ (rest ++ ['\n']))
    ("http://".data ++ rest) rfl rfl rfl
    (link_line_no_logo_label rest h2) (link_line_contains_label rest)
    (link_line_has_newline rest) (annotSearch_link_line rest h1 h2)
  dsimp only at hsec
  unfold processProgramsChunk
  rw [hpre]
  dsimp only
  rw [hsec]
  rfl

lemma stream_step_link_line (rest : List Char) (h1 : rest ≠ [])
    (h2 : rest.all (fun c => !isPySpace c) = true) :
    stream_step ⟨some "programs", true, [], false, true, [], [], none⟩
      (GraphEvent.modelStream "sg_bot"
        ("program link: http://".data ++ (rest ++ ['\n']))) =
      (⟨some "programs", true, [], false, true, [], [], none⟩,
       [WFEvent.programLink ("http://".data ++ rest),
        WFEvent.text (jsonProgramLinkLine ("http://".data ++ rest))]) := by
  have h0 : stream_step ⟨some "programs", true, [], false, true, [], [], none⟩
      (GraphEvent.modelStream "sg_bot"
        ("program link: http://".data ++ (rest ++ ['\n']))) =
      ((processProgramsChunk ⟨some "programs", true, [], false, true, [], [], none⟩
          ("program link: http://".data ++ (rest ++ ['\n']))).1,
       [] ++ (processProgramsChunk ⟨some "programs", true, [], false, true, [], [], none⟩
          ("program link: http://".data ++ (rest ++ ['\n']))).2) := rfl
  rw [h0, processProgramsChunk_link_line rest h1 h2]
  rfl

lemma run_events_link_line (rest : List Char) (h1 : rest ≠ [])
    (h2 : rest.all (fun c => !isPySpace c) = true) :
    run_graph_events (initialWFState []) []
      [GraphEvent.modelStream "sg_bot" "----program start----\n".data,
       GraphEvent.modelStream "sg_bot"
         ("program link: http://".data ++ (rest ++ ['\n']))] =
      (⟨some "programs", true, [], false, true, [], [], none⟩,
       [WFEvent.respTypeMeta "programs",
        WFEvent.text "----program start----\n".data,
        WFEvent.text ('\n' :: "----program start----\n".data)] ++
        [WFEvent.programLink ("http://".data ++ rest),
         WFEvent.text (jsonProgramLinkLine ("http://".data ++ rest))]) := by
  have hfirst : run_graph_events (initialWFState []) []
      [GraphEvent.modelStream "sg_bot" "----program start----\n".data,
       GraphEvent.modelStream "sg_bot"
         ("program link: http://".data ++ (rest ++ ['\n']))] =
      run_graph_events ⟨some "programs", true, [], false, true, [], [], none⟩
        [WFEvent.respTypeMeta "programs",
         WFEvent.text "----program start----\n".data,
         WFEvent.text ('\n' :: "----program start----\n".data)]
        [GraphEvent.modelStream "sg_bot"
          ("program link: http://".data ++ (rest ++ ['\n']))] := rfl
  rw [hfirst]
  simp only [run_graph_events]
  rw [stream_step_link_line rest h1 h2]

/-- C7 (amended): after the section-boundary marker, a whole-chunk line
matching the annotation pattern is withheld from the text stream and
replaced by a typed event plus a JSON text copy — `school logo: <url>`
yields the `school_logo` dict event carrying the URL and its JSON dump as
an extra text chunk, and `program link: <url>` symmetrically yields the
`program_link` dict event carrying the URL and its JSON dump; in both
scenarios the annotation line itself never appears as a text delta. -/
theorem C7_amended_logo_and_link_lines :
    ∀ rest : List Char, rest ≠ [] → rest.all (fun c => !isPySpace c) = true →
      ((stream_workflow_events none []
          [GraphEvent.modelStream "sg_bot" "----program start----\n".data,
           GraphEvent.modelStream "sg_bot"
             ("school logo: http://".data ++ (rest ++ ['\n']))] =
          [WFEvent.respTypeMeta "programs",
           WFEvent.text "----program start----\n".data,
           WFEvent.text ('\n' :: "----program start----\n".data),
           WFEvent.schoolLogo ("http://".data ++ rest),
           WFEvent.text (jsonLogoLine ("http://".data ++ rest)),
           WFEvent.finalMeta none none,
           WFEvent.streamComplete])
        ∧ WFEvent.text ("school logo: http://".data ++ (rest ++ ['\n'])) ∉
            stream_workflow_events none []
              [GraphEvent.modelStream "sg_bot" "----program start----\n".data,
               GraphEvent.modelStream "sg_bot"
                 ("school logo: http://".data ++ (rest ++ ['\n']))])
      ∧
      ((stream_workflow_events none []
          [GraphEvent.modelStream "sg_bot" "----program start----\n".data,
           GraphEvent.modelStream "sg_bot"
             ("program link: http://".data ++ (rest ++ ['\n']))] =
          [WFEvent.respTypeMeta "programs",
           WFEvent.text "----program start----\n".data,
           WFEvent.text ('\n' :: "----program start----\n".data),
           WFEvent.programLink ("http://".data ++ rest),
           WFEvent.text (jsonProgramLinkLine ("http://".data ++ rest)),
           WFEvent.finalMeta none none,
           WFEvent.streamComplete])
        ∧ WFEvent.text ("program link: http://".data ++ (rest ++ ['\n'])) ∉
            stream_workflow_events none []
              [GraphEvent.modelStream "sg_bot" "----program start----\n".data,
               GraphEvent.modelStream "sg_bot"
                 ("program link: http://".data ++ (rest ++ ['\n']))]) := by
  intro rest h1 h2
  have houtL : stream_workflow_events none []
      [GraphEvent.modelStream "sg_bot" "----program start----\n".data,
       GraphEvent.modelStream "sg_bot"
         ("school logo: http://".data ++ (rest ++ ['\n']))] =
      [WFEvent.respTypeMeta "programs",
       WFEvent.text "----program start----\n".data,
       WFEvent.text ('\n' :: "----program start----\n".data),
       WFEvent.schoolLogo ("http://".data ++ rest),
       WFEvent.text (jsonLogoLine ("http://".data ++ rest)),
       WFEvent.finalMeta none none,
       WFEvent.streamComplete] := by
    unfold stream_workflow_events
    rw [run_events_logo_line rest h1 h2]
    dsimp only
    rfl
  have houtP : stream_workflow_events none []
      [GraphEvent.modelStream "sg_bot" "----program start----\n".data,
       GraphEvent.modelStream "sg_bot"
         ("program link: http://".data ++ (rest ++ ['\n']))] =
      [WFEvent.respTypeMeta "programs",
       WFEvent.text "----program start----\n".data,
       WFEvent.text ('\n' :: "----program start----\n".data),
       WFEvent.programLink ("http://".data ++ rest),
       WFEvent.text (jsonProgramLinkLine ("http://".data ++ rest)),
       WFEvent.finalMeta none none,
       WFEvent.streamComplete] := by
    unfold stream_workflow_events
    rw [run_events_link_line rest h1 h2]
    dsimp only
    rfl
  refine ⟨⟨houtL, ?_⟩, ⟨houtP, ?_⟩⟩
  · rw [houtL]
    intro hmem
    simp only [List.mem_cons, List.not_mem_nil, or_false] at hmem
    rcases hmem with h | h | h | h | h | h | h
    · exact WFEvent.noConfusion h
    · have h' := WFEvent.text.inj h
      have hh : (some 's' : Option Char) = some '-' := congrArg List.head? h'
      exact absurd hh (by decide)
    · have h' := WFEvent.text.inj h
      have hh : (some 's' : Option Char) = some '\n' := congrArg List.head? h'
      exact absurd hh (by decide)
    · exact WFEvent.noConfusion h
    · have h' := WFEvent.text.inj h
      have hh : (some 's' : Option Char) = some '\x7b' := congrArg List.head? h'
      exact absurd hh (by decide)
    · exact WFEvent.noConfusion h
    · exact WFEvent.noConfusion h
  · rw [houtP]
    intro hmem
    simp only [List.mem_cons, List.not_mem_nil, or_false] at hmem
    rcases hmem with h | h | h | h | h | h | h
    · exact WFEvent.noConfusion h
    · have h' := WFEvent.text.inj h
      have hh : (some 'p' : Option Char) = some '-' := congrArg List.head? h'
      exact absurd hh (by decide)
    · have h' := WFEvent.text.inj h
      have hh : (some 'p' : Option Char) = some '\n' := congrArg List.head? h'
      exact absurd hh (by decide)
    · exact WFEvent.noConfusion h
    · have h' := WFEvent.text.inj h
      have hh : (some 'p' : Option Char) = some '\x7b' := congrArg List.head? h'
      exact absurd hh (by decide)
    · exact WFEvent.noConfusion h
    · exact WFEvent.noConfusion h

/-- Witness for C7 (amended), at the one-character URL tail `x`: the
program-link scenario's full output, including the typed `program_link`
event. -/
theorem C7_amended_logo_and_link_lines_witness :
    stream_workflow_events none []
      [GraphEvent.modelStream "sg_bot" "----program start----\n".data,
       GraphEvent.modelStream "sg_bot"
         ("program link: http://".data ++ (['x'] ++ ['\n']))] =
      [WFEvent.respTypeMeta "programs",
       WFEvent.text "----program start----\n".data,
       WFEvent.text ('\n' :: "----program start----\n".data),
       WFEvent.programLink ("http://".data ++ ['x']),
       WFEvent.text (jsonProgramLinkLine ("http://".data ++ ['x'])),
       WFEvent.finalMeta none none,
       WFEvent.streamComplete] :=
  (C7_amended_logo_and_link_lines ['x'] (by decide) (by decide)).2.1
